import Mathlib

/-!
Verification of `process_boat_data.py` (data-exporter repository).

We shallowly embed the core of the script: the JSON value model, the
nested-field extractor `get_nested_value`, the transform lambdas of
`MESSAGE_CONFIGS`, the line reader `read_json_file`, the per-record
processing loop and CSV export of `process_boat_day_data`, and the
directory-level orchestration of `process_all_boats` / `main`.

Python dynamic values decoded from JSON are modelled by `PyVal`
(`json.loads` yields None, bool, int, float, str, list, dict).
Python floats are modelled as exact rationals; no claim in this
development depends on floating-point rounding.  Operations that can
raise a Python exception are modelled in `Except String`, the error
string naming the exception class.
-/

/-- A Python value as produced by `json.loads`: None, bool, int, float,
str, list, or dict with string keys (JSON object keys are strings). -/
inductive PyVal where
  | none
  | bool (b : Bool)
  | int (n : Int)
  | float (q : ℚ)
  | str (s : String)
  | list (xs : List PyVal)
  | dict (kvs : List (String × PyVal))

/-- First-match association lookup, modelling `field in d` / `d[field]` /
`d.get(field)` on a dict represented as a key-value list (decoded JSON
objects have distinct keys). -/
def lookupStr : List (String × PyVal) → String → Option PyVal
  | [], _ => Option.none
  | (k, v) :: rest, f => if k = f then some v else lookupStr rest f

/-- Python truthiness (`if x:`) for the values `PyVal` covers. -/
def pyTruthy : PyVal → Bool
  | .none => false
  | .bool b => b
  | .int n => n ≠ 0
  | .float q => q ≠ 0
  | .str s => s ≠ ""
  | .list xs => ¬ xs.isEmpty
  | .dict kvs => ¬ kvs.isEmpty

/-- `record.get(key, default)`: succeeds only on a dict; on any other
value Python raises `AttributeError` (no `.get` attribute). -/
def pyGet (v : PyVal) (key : String) (dflt : PyVal) : Except String PyVal :=
  match v with
  | .dict kvs => .ok ((lookupStr kvs key).getD dflt)
  | _ => .error "AttributeError: object has no attribute get"

/-- `list(x.keys())`: succeeds only on a dict; otherwise Python raises
`AttributeError` (no `.keys` attribute). -/
def pyKeys (v : PyVal) : Except String (List String) :=
  match v with
  | .dict kvs => .ok (kvs.map Prod.fst)
  | _ => .error "AttributeError: object has no attribute keys"

/-- `isinstance(value, dict)`. -/
def isDict : PyVal → Bool
  | .dict _ => true
  | _ => false

/-- Hashability of a JSON-decoded Python value: lists and dicts are
unhashable, everything else is hashable. -/
def pyHashable : PyVal → Bool
  | .list _ => false
  | .dict _ => false
  | _ => true

/-- `str(x)` as used by the f-string `f'Unknown(\x7bx\x7d)'`.  Exact for
None, bool, int and str.  The float, list and dict renderings are
placeholders: no theorem in this development evaluates them (the gear
transform raises before formatting a list or dict, and no claim formats
a float). -/
def pyStr : PyVal → String
  | .none => "None"
  | .bool b => if b then "True" else "False"
  | .int n => toString n
  | .float q => toString q
  | .str s => s
  | .list _ => "<list>"
  | .dict _ => "<dict>"

/-- `field_path.split('.')`: split on every dot, keeping empty pieces
(Python semantics: `''.split('.') == ['']`). -/
def splitDotGo : List Char → List Char → List String
  | [], cur => [String.mk cur.reverse]
  | c :: rest, cur =>
    if c = '.' then String.mk cur.reverse :: splitDotGo rest []
    else splitDotGo rest (c :: cur)

def splitDot (s : String) : List String := splitDotGo s.data []

/-- The loop of `get_nested_value`: walk the remaining path segments;
at each step the current value must be a dict containing the segment,
otherwise return None immediately. -/
def getNestedGo : List String → PyVal → PyVal
  | [], v => v
  | f :: fs, v =>
    match v with
    | .dict kvs =>
      match lookupStr kvs f with
      | some v' => getNestedGo fs v'
      | Option.none => .none
    | _ => .none

/-- `get_nested_value(data, field_path)`: extract a value from a nested
dict using dot notation, returning None (`PyVal.none`) when not found. -/
def getNestedValue (data : PyVal) (fieldPath : String) : PyVal :=
  getNestedGo (splitDot fieldPath) data

/-- `GEAR_STATE_MAP` from the source. -/
def GEAR_STATE_MAP : List (Int × String) :=
  [(0, "Neutral"), (1, "Forward"), (2, "Reverse"), (3, "NotAvailable"),
   (255, "Unknown")]

/-- Python `==` between a JSON value and an int dict key, as used by
`GEAR_STATE_MAP.get(x, ...)`: numbers compare across int/float/bool,
everything else is unequal to an int key. -/
def pyEqInt : PyVal → Int → Bool
  | .int n, m => n = m
  | .float q, m => q = (m : ℚ)
  | .bool b, m => (if b then (1 : Int) else 0) = m
  | _, _ => false

/-- The gear transform
`lambda x: GEAR_STATE_MAP.get(x, f'Unknown(\x7bx\x7d)') if x is not None else None`.
`dict.get` raises `TypeError` on an unhashable key (list or dict). -/
def gearTransform (x : PyVal) : Except String PyVal :=
  match x with
  | .none => .ok .none
  | _ =>
    if pyHashable x then
      match GEAR_STATE_MAP.find? (fun kv => pyEqInt x kv.1) with
      | some kv => .ok (.str kv.2)
      | Option.none => .ok (.str ("Unknown(" ++ pyStr x ++ ")"))
    else .error "TypeError: unhashable type"

/-- The float literal `3.14159265359` of the heading transform, exact. -/
def piApprox : ℚ := 314159265359 / 100000000000

/-- The heading transform
`lambda x: x * 180.0 / 3.14159265359 if x is not None else None`.
`x * 180.0` raises `TypeError` unless `x` is a number (str, list and
dict do not multiply with a float). -/
def headingTransform (x : PyVal) : Except String PyVal :=
  match x with
  | .none => .ok .none
  | .int n => .ok (.float ((n : ℚ) * 180 / piApprox))
  | .float q => .ok (.float (q * 180 / piApprox))
  | .bool b => .ok (.float ((if b then (1 : ℚ) else 0) * 180 / piApprox))
  | _ => .error "TypeError: unsupported operand type"

/-- One entry of `MESSAGE_CONFIGS`.  Every entry in the source carries a
`message_type` key, so `config.get('message_type', config_key)` always
yields the `message_type` field. -/
structure MessageConfig where
  key : String
  message_type : String
  field : String
  csv_name : String
  transform : Option (PyVal → Except String PyVal)

/-- `MESSAGE_CONFIGS` from the source, in source order. -/
def MESSAGE_CONFIGS : List MessageConfig :=
  [⟨"VolvoFuelLevel", "PentaEngineStatus", "fuel_level.fuel_level1",
      "fuel_level1.csv", Option.none⟩,
   ⟨"EngineFuelEconomy", "PentaEngineStatus", "fuel_econ.engine_fuel_rate",
      "engine_fuel_rate.csv", Option.none⟩,
   ⟨"EngineHours", "PentaEngineStatus", "hours.engine_total_hours_of_operation",
      "engine_total_hours_of_operation.csv", Option.none⟩,
   ⟨"EngineTemperatures", "PentaEngineStatus", "temps.engine_oil_temperature",
      "engine_oil_temperature.csv", Option.none⟩,
   ⟨"PentaEngineStatus_oil_pressure", "PentaEngineStatus", "pressures.engine_oil_pressure",
      "engine_oil_pressure.csv", Option.none⟩,
   ⟨"EngineSpeed", "PentaEngineStatus", "speed.engine_speed",
      "engine_speed.csv", Option.none⟩,
   ⟨"SeaState", "SeaState", "instant_g_force",
      "instant_g_force.csv", Option.none⟩,
   ⟨"Odometry", "Odometry", "odometer",
      "odometer.csv", Option.none⟩,
   ⟨"PentaEngineStatus_gear", "PentaEngineStatus", "vessel_status.current_gear",
      "current_gear.csv", some gearTransform⟩,
   ⟨"VehicleCommand", "VehicleCommand", "throttle",
      "throttle.csv", Option.none⟩,
   ⟨"VesselHeading", "VesselHeading", "heading",
      "heading.csv", some headingTransform⟩,
   ⟨"PentaEngineStatus_steering", "PentaEngineStatus", "vessel_status.current_steering_angle",
      "current_steering_angle.csv", Option.none⟩,
   ⟨"Ahrs_roll", "Ahrs", "attitude.roll_deg", "roll_deg.csv", Option.none⟩,
   ⟨"Ahrs_pitch", "Ahrs", "attitude.pitch_deg", "pitch_deg.csv", Option.none⟩,
   ⟨"Ahrs_yaw", "Ahrs", "attitude.yaw_deg", "yaw_deg.csv", Option.none⟩]

/-- A data point as appended to `message_data[config_key]`: the raw
(not yet CSV-serialized) boat name, value and timestamp. -/
structure DataPointV where
  boat : String
  value : PyVal
  timestamp : PyVal

/-- The inner `for config_key, config in MESSAGE_CONFIGS.items()` loop of
`process_boat_day_data`, for one record: for each config whose
message_type equals the record's, extract the field, apply the transform
when present and the value is not None, and append a data point when the
(possibly transformed) value is not None.  Points are accumulated as
(config_key, point) pairs; the series of one key is the subsequence with
that key. -/
def runConfigs (boat : String) (ts : PyVal) (mt : String) (mdo : PyVal) :
    List MessageConfig → List (String × DataPointV) →
    Except String (List (String × DataPointV))
  | [], acc => .ok acc
  | cfg :: rest, acc =>
    if cfg.message_type = mt then
      match getNestedValue mdo cfg.field with
      | .none => runConfigs boat ts mt mdo rest acc
      | v =>
        match cfg.transform with
        | some t =>
          match t v with
          | .error e => .error e
          | .ok .none => runConfigs boat ts mt mdo rest acc
          | .ok w => runConfigs boat ts mt mdo rest (acc ++ [(cfg.key, ⟨boat, w, ts⟩)])
        | Option.none => runConfigs boat ts mt mdo rest (acc ++ [(cfg.key, ⟨boat, v, ts⟩)])
    else runConfigs boat ts mt mdo rest acc

/-- The body of `for record in records:` in `process_boat_day_data`:
`timestamp = record.get('ts', '')`, `msg_obj = record.get('msg', {})`;
if `msg_obj` is truthy, take the first key of `msg_obj` as the message
type, fetch its payload, and run the config loop.  A non-dict record or
a truthy non-dict `msg_obj` raises `AttributeError` (uncaught in the
source). -/
def processRecord (boat : String) (record : PyVal) :
    Except String (List (String × DataPointV)) := do
  let ts ← pyGet record "ts" (.str "")
  let msgObj ← pyGet record "msg" (.dict [])
  if pyTruthy msgObj then do
    let keys ← pyKeys msgObj
    let mt := keys.headD ""
    let mdo ← pyGet msgObj mt (.dict [])
    runConfigs boat ts mt mdo MESSAGE_CONFIGS []
  else
    pure []

/-- The whole record loop over a list of decoded records; an exception in
any record aborts the loop (no try/except around it in the source). -/
def processRecords (boat : String) (records : List PyVal) :
    Except String (List (String × DataPointV)) :=
  records.foldlM (fun acc r => do
    let pts ← processRecord boat r
    pure (acc ++ pts)) []

/-- One physical line of an input file: its raw text together with the
outcome of `json.loads` on it (`Option.none` models a
`json.JSONDecodeError`).  The JSON grammar itself is not re-implemented;
a line is characterized by its decode outcome. -/
structure Line where
  text : String
  decode : Option PyVal

/-- `if line.strip():` — true when the line has a non-whitespace
character (a stripped non-empty string is truthy). -/
def pyStripTruthy (s : String) : Bool :=
  s.data.any (fun c => ¬ c.isWhitespace)

/-- One iteration of the line loop of `read_json_file`: skip a blank
line silently; append the decoded record on success; log one warning
(counted) on a `JSONDecodeError` and continue. -/
def readStep (acc : List PyVal × Nat) (l : Line) : List PyVal × Nat :=
  if pyStripTruthy l.text then
    match l.decode with
    | some r => (acc.1 ++ [r], acc.2)
    | Option.none => (acc.1, acc.2 + 1)
  else acc

/-- The loop of `read_json_file`: decode each line independently, in
line order; return the records together with the number of warnings
logged. -/
def readJsonFile (lines : List Line) : List PyVal × Nat :=
  lines.foldl readStep ([], 0)

/-- A data point at export time, fields as they appear in the written
CSV row (the day processor always stores the boat name as a string, and
for the sorting claims the timestamps of one series are taken as
strings, the representation the spec fixes for exported rows). -/
structure DataPoint where
  boat : String
  value : String
  timestamp : String
deriving DecidableEq

/-- Code-point lexicographic string comparison: Python's `<` on `str`,
which is what `data_points.sort(key=lambda x: x['timestamp'])` uses on
string timestamps. -/
def charListLt : List Char → List Char → Bool
  | [], [] => false
  | [], _ :: _ => true
  | _ :: _, [] => false
  | a :: as, b :: bs =>
    if a.toNat < b.toNat then true
    else if b.toNat < a.toNat then false
    else charListLt as bs

def strLt (a b : String) : Bool := charListLt a.data b.data

/-- Stable insertion of a point into an already-sorted suffix: the new
point (which occurs earlier in the original list) is placed before the
first point whose timestamp is not smaller. -/
def insertTs (p : DataPoint) : List DataPoint → List DataPoint
  | [] => [p]
  | q :: qs =>
    if strLt q.timestamp p.timestamp then q :: insertTs p qs
    else p :: q :: qs

/-- Stable sort by timestamp, modelling
`data_points.sort(key=lambda x: x['timestamp'])` (Python's sort is
stable). -/
def sortTs : List DataPoint → List DataPoint
  | [] => []
  | p :: ps => insertTs p (sortTs ps)

/-- Non-decreasing-timestamp relation between consecutive exported rows:
the later row's timestamp is not smaller than the earlier one's
(`¬ (b.timestamp < a.timestamp)` under Python string comparison). -/
def RTs (a b : DataPoint) : Prop := strLt b.timestamp a.timestamp = false

/-- Minimal quoting of one CSV field, as the `csv` module's default
QUOTE_MINIMAL dialect does: quote when the field contains the delimiter,
the quote char, or a line-terminator character, doubling quote chars. -/
def csvField (s : String) : String :=
  if s.data.any (fun c => c = ',' ∨ c = '"' ∨ c = '\n' ∨ c = '\r') then
    "\"" ++ String.replace s "\"" "\"\"" ++ "\""
  else s

/-- One CSV data row in `boat,value,timestamp` field order. -/
def csvRow (p : DataPoint) : String :=
  csvField p.boat ++ "," ++ csvField p.value ++ "," ++ csvField p.timestamp

/-- The fixed header row written by `writer.writeheader()`. -/
def csvHeader : String := "boat,value,timestamp"

/-- The lines of the CSV file the exporter writes for a series:
`Option.none` when the series is empty (the `if data_points:` guard —
no file is written), otherwise the header followed by one row per data
point in timestamp-sorted order. -/
def exportCsvLines (s : List DataPoint) : Option (List String) :=
  if s.isEmpty then Option.none
  else some (csvHeader :: (sortTs s).map csvRow)

/-- The bytes of the CSV file: each line followed by the csv module's
default `\r\n` terminator. -/
def exportCsvContent (s : List DataPoint) : String :=
  String.join ((csvHeader :: (sortTs s).map csvRow).map (fun l => l ++ "\r\n"))

/-- A file store as a map from path to content. -/
def Store : Type := String → Option String

/-- One exporter run for one signal: writes (overwriting) the CSV file
when the series is non-empty, leaves the store unchanged otherwise. -/
def runExporter (s : List DataPoint) (path : String) (st : Store) : Store :=
  if s.isEmpty then st
  else fun p => if p = path then some (exportCsvContent s) else st p

/-- Python `<` between two timestamp values, as invoked by the sort in
`process_boat_day_data`: strings compare lexicographically, numbers
numerically (int/float/bool interchangeably); any other pair raises
`TypeError`. -/
def pyNum : PyVal → Option ℚ
  | .int n => some (n : ℚ)
  | .float q => some q
  | .bool b => some (if b then 1 else 0)
  | _ => Option.none

def pyLt (a b : PyVal) : Except String Bool :=
  match a, b with
  | .str x, .str y => .ok (strLt x y)
  | _, _ =>
    match pyNum a, pyNum b with
    | some x, some y => .ok (decide (x < y))
    | _, _ => .error "TypeError: comparison not supported between instances"

/-- Stable insertion for the raw-value sort, threading the possibly
raising comparison. -/
def insertTsV (p : DataPointV) : List DataPointV → Except String (List DataPointV)
  | [] => .ok [p]
  | q :: qs => do
    let b ← pyLt q.timestamp p.timestamp
    if b then do
      let rest ← insertTsV p qs
      pure (q :: rest)
    else pure (p :: q :: qs)

/-- `data_points.sort(key=lambda x: x['timestamp'])` over raw values:
stable, and raising `TypeError` when incomparable timestamps meet. -/
def sortTsV : List DataPointV → Except String (List DataPointV)
  | [] => .ok []
  | p :: ps => do
    let rest ← sortTsV ps
    insertTsV p rest

/-- CSV row of a raw data point: the csv module stringifies non-string
values with `str()`. -/
def csvRowV (p : DataPointV) : String :=
  csvRow ⟨p.boat, pyStr p.value, pyStr p.timestamp⟩

/-- CSV file content for a raw series (sorted first). -/
def csvContentV (s : List DataPointV) : Except String String := do
  let sorted ← sortTsV s
  pure (String.join ((csvHeader :: sorted.map csvRowV).map (fun l => l ++ "\r\n")))

/-- A file in a day directory: name plus line contents. -/
structure SimpleFile where
  name : String
  lines : List Line

/-- `name.endswith(suffix)` over the character list. -/
def strEndsWith (s suf : String) : Bool :=
  s.data.reverse.take suf.data.length = suf.data.reverse

/-- `day_dir.glob('*.json')` then `day_dir.glob('*.jsonl')`, then the
`.zst` exclusion filter from the source (dead in practice, kept for
fidelity).  Glob order is modelled as directory order per pattern. -/
def candidateFiles (files : List SimpleFile) : List SimpleFile :=
  ((files.filter (fun f => strEndsWith f.name ".json")) ++
   (files.filter (fun f => strEndsWith f.name ".jsonl"))).filter
    (fun f => ¬ strEndsWith f.name ".zst")

/-- A filesystem fragment: the set of directories that exist and the
files with their contents. -/
structure FS where
  dirs : List String
  files : List (String × String)

/-- `output_dir.mkdir(parents=True, exist_ok=True)` (the single output
path stands for the created chain of parents). -/
def mkdirP (fs : FS) (d : String) : FS :=
  if d ∈ fs.dirs then fs else ⟨fs.dirs ++ [d], fs.files⟩

/-- `open(csv_path, 'w')` + write: overwrite or create. -/
def writeFileFS (fs : FS) (path content : String) : FS :=
  ⟨fs.dirs, (path, content) :: fs.files.filter (fun pc => pc.1 ≠ path)⟩

/-- Severity of a log call in the source. -/
inductive LogLevel where
  | info
  | warning
  | error
deriving DecidableEq

structure LogEvent where
  level : LogLevel
  msg : String
deriving DecidableEq

/-- `process_boat_day_data` at the filesystem level: enumerate candidate
files; when none, warn and return with the filesystem untouched;
otherwise read and process every record of every candidate file, then
create the output directory and write one sorted CSV per config whose
series is non-empty (warning for empty series).  Record-level and
sort-level exceptions propagate (`Except.error`). -/
def processBoatDayData (dayFiles : List SimpleFile) (outputDir boat : String)
    (fs : FS) : Except String (FS × List LogEvent) :=
  let jsonFiles := candidateFiles dayFiles
  if jsonFiles.isEmpty then
    .ok (fs, [⟨.warning, "No JSON files found"⟩])
  else do
    let allPts ← jsonFiles.foldlM
      (fun acc f => do
        let pts ← processRecords boat (readJsonFile f.lines).1
        pure (acc ++ pts)) []
    let fs1 := mkdirP fs outputDir
    MESSAGE_CONFIGS.foldlM
      (fun st cfg => do
        let series := allPts.filterMap
          (fun p => if p.1 = cfg.key then some p.2 else Option.none)
        if series.isEmpty then
          pure (st.1, st.2 ++ [⟨.warning, "No data found for " ++ cfg.key⟩])
        else do
          let content ← csvContentV series
          pure (writeFileFS st.1 (outputDir ++ "/" ++ cfg.csv_name) content,
                st.2 ++ [⟨.info, "Created " ++ cfg.csv_name⟩]))
      (fs1, ([] : List LogEvent))

/-- A day directory as the orchestrator sees it: its name, and whether
it holds candidate JSON files (directory-level abstraction of the unit's
content; record-level behaviour is modelled by `processBoatDayData`). -/
structure DayDirM where
  name : String
  hasCandidates : Bool
deriving DecidableEq

/-- A boat directory: its name and its day subdirectories. -/
structure BoatDirM where
  name : String
  days : List DayDirM
deriving DecidableEq

/-- The day loop of `process_all_boats` for the selected boats, at the
logging level: warn when a boat has no day directories, warn when the
day filter matches nothing for a boat, warn when a day has no candidate
files, info otherwise. -/
def processBoatsLoop (boats : List BoatDirM) (dayFilter : Option String) :
    List LogEvent :=
  boats.foldl
    (fun (logs : List LogEvent) (b : BoatDirM) =>
      let logs := logs ++ [⟨.info, "Processing boat: " ++ b.name⟩]
      if b.days.isEmpty then
        logs ++ [⟨.warning, "No day directories found for boat " ++ b.name⟩]
      else
        let dayDirs : List DayDirM :=
          match dayFilter with
          | some df => b.days.filter (fun d => d.name = df)
          | Option.none => b.days
        match dayFilter with
        | some df =>
          if dayDirs.isEmpty then
            logs ++ [⟨.warning, "Day not found for boat " ++ b.name⟩]
          else
            (logs ++ [⟨.info, "Processing single day: " ++ df⟩]) ++
              dayDirs.foldl
                (fun (ls : List LogEvent) (d : DayDirM) =>
                  ls ++ [if d.hasCandidates then
                           (⟨.info, "Processing day: " ++ d.name⟩ : LogEvent)
                         else ⟨.warning, "No JSON files found"⟩]) []
        | Option.none =>
          logs ++
            dayDirs.foldl
              (fun (ls : List LogEvent) (d : DayDirM) =>
                ls ++ [if d.hasCandidates then
                         (⟨.info, "Processing day: " ++ d.name⟩ : LogEvent)
                       else ⟨.warning, "No JSON files found"⟩]) [])
    []

/-- `process_all_boats` at the directory level.  Every branch returns
normally (`logger.error` logs and `return`s; nothing raises here). -/
def processAllBoats (rootExists : Bool) (boats : List BoatDirM)
    (boatFilter dayFilter : Option String) : List LogEvent :=
  if ¬ rootExists then
    [⟨.error, "Raw JSON directory does not exist"⟩]
  else if boats.isEmpty then
    [⟨.warning, "No boat directories found"⟩]
  else
    match boatFilter with
    | some bf =>
      let sel := boats.filter (fun b => b.name = bf)
      if sel.isEmpty then [⟨.error, "Boat not found"⟩]
      else ⟨.info, "Processing single boat: " ++ bf⟩ :: processBoatsLoop sel dayFilter
    | Option.none =>
      ⟨.info, "Found boat directories"⟩ :: processBoatsLoop boats dayFilter

/-- `main()`: parse args, call `process_all_boats`, log completion and
return None.  CPython exits with status 0 when `main` returns without an
uncaught exception; no `sys.exit` appears in the source, so the exit
code is 0 on every path through `process_all_boats`. -/
def mainRun (rootExists : Bool) (boats : List BoatDirM)
    (boatFilter dayFilter : Option String) : List LogEvent × Nat :=
  (processAllBoats rootExists boats boatFilter dayFilter ++
     [⟨.info, "Processing complete!"⟩], 0)

/-- Whether a log contains an error-level event. -/
def hasError (logs : List LogEvent) : Bool :=
  logs.any (fun e => e.level = LogLevel.error)

/-- C5: `get_nested_value` traverses one dot-separated segment at a
time, returns the value reached when every segment resolves to a key in
a mapping, and returns None immediately (never raising — it is a total
function) as soon as the current value is not a mapping or lacks the
next segment's key; on payload `\x7b"a": \x7b"b": 5\x7d\x7d` the path
`a.b` yields 5 and the paths `a.c` and `x.y` yield None. -/
theorem get_nested_value_extraction :
    (∀ v : PyVal, getNestedGo [] v = v) ∧
    (∀ f fs kvs v, lookupStr kvs f = some v →
        getNestedGo (f :: fs) (.dict kvs) = getNestedGo fs v) ∧
    (∀ f fs kvs, lookupStr kvs f = Option.none →
        getNestedGo (f :: fs) (.dict kvs) = .none) ∧
    (∀ f fs v, isDict v = false → getNestedGo (f :: fs) v = .none) ∧
    getNestedValue (.dict [("a", .dict [("b", .int 5)])]) "a.b" = .int 5 ∧
    getNestedValue (.dict [("a", .dict [("b", .int 5)])]) "a.c" = .none ∧
    getNestedValue (.dict [("a", .dict [("b", .int 5)])]) "x.y" = .none := by
  refine ⟨fun v => rfl, ?_, ?_, ?_, rfl, rfl, rfl⟩
  · intro f fs kvs v h
    simp [getNestedGo, h]
  · intro f fs kvs h
    simp [getNestedGo, h]
  · intro f fs v h
    cases v <;> simp_all [isDict, getNestedGo]

/-- Witness for C5 at concrete inputs: one successful resolution step
and the empty-path base case. -/
theorem get_nested_value_extraction_witness :
    getNestedGo ["b"] (.dict [("b", .int 5)]) = getNestedGo [] (.int 5) ∧
    getNestedGo [] (PyVal.int 5) = .int 5 :=
  ⟨get_nested_value_extraction.2.1 "b" [] [("b", .int 5)] (.int 5) rfl,
   get_nested_value_extraction.1 (.int 5)⟩

/-- C7: the gear transform maps 0, 1, 2, 3, 255 to their labels, any
other integer code c to the sentinel string Unknown(c), and None to
None. -/
theorem gear_transform_mapping :
    gearTransform (.int 0) = .ok (.str "Neutral") ∧
    gearTransform (.int 1) = .ok (.str "Forward") ∧
    gearTransform (.int 2) = .ok (.str "Reverse") ∧
    gearTransform (.int 3) = .ok (.str "NotAvailable") ∧
    gearTransform (.int 255) = .ok (.str "Unknown") ∧
    gearTransform (.int 7) = .ok (.str "Unknown(7)") ∧
    (∀ c : Int, c ≠ 0 → c ≠ 1 → c ≠ 2 → c ≠ 3 → c ≠ 255 →
        gearTransform (.int c) = .ok (.str ("Unknown(" ++ toString c ++ ")"))) ∧
    gearTransform .none = .ok .none := by
  refine ⟨rfl, rfl, rfl, rfl, rfl, rfl, ?_, rfl⟩
  intro c h0 h1 h2 h3 h255
  simp [gearTransform, pyHashable, GEAR_STATE_MAP, List.find?, pyEqInt, pyStr,
    h0, h1, h2, h3, h255]

/-- Witness for C7's general clause at the concrete out-of-table code
42. -/
theorem gear_transform_mapping_witness :
    gearTransform (.int 42) = .ok (.str ("Unknown(" ++ toString (42 : Int) ++ ")")) :=
  gear_transform_mapping.2.2.2.2.2.2.1 42 (by decide) (by decide) (by decide)
    (by decide) (by decide)

/-- C6 counterexample: the claim says every transform never raises on
non-null input, degrading unexpected shapes to a labeled sentinel; but
the heading transform raises TypeError on the string "a", and the gear
transform raises TypeError on the non-hashable empty list. -/
theorem transforms_raise_on_some_non_null :
    headingTransform (.str "a") = .error "TypeError: unsupported operand type" ∧
    gearTransform (.list []) = .error "TypeError: unhashable type" :=
  ⟨rfl, rfl⟩

/-- C6 amended: both transforms map None to None; the gear transform is
total on every hashable input (degrading unknown codes to a labeled
sentinel) but raises TypeError on non-hashable input, and the heading
transform is total on None and numeric input but raises TypeError on
any other input, such as a string. -/
theorem transforms_null_passthrough_and_partial_totality :
    gearTransform .none = .ok .none ∧
    headingTransform .none = .ok .none ∧
    (∀ v, pyHashable v = true → ∃ r, gearTransform v = .ok r) ∧
    (∀ v, pyNum v ≠ Option.none → ∃ r, headingTransform v = .ok r) ∧
    (∀ v, pyHashable v = false → ∃ e, gearTransform v = .error e) ∧
    (∀ v, pyNum v = Option.none → v ≠ .none → ∃ e, headingTransform v = .error e) := by
  refine ⟨rfl, rfl, ?_, ?_, ?_, ?_⟩
  · intro v hv
    cases v <;> simp_all [pyHashable, gearTransform] <;>
      cases hfind : GEAR_STATE_MAP.find? _ <;> simp [hfind]
  · intro v hv
    cases v <;> simp_all [pyNum, headingTransform]
  · intro v hv
    cases v <;> simp_all [pyHashable, gearTransform]
  · intro v hv hv2
    cases v <;> simp_all [pyNum, headingTransform]

/-- Witness for C6 amended: the gear transform succeeds on the hashable
string "x" and raises on the non-hashable empty dict. -/
theorem transforms_partial_totality_witness :
    (∃ r, gearTransform (.str "x") = .ok r) ∧
    (∃ e, gearTransform (.dict []) = .error e) :=
  ⟨transforms_null_passthrough_and_partial_totality.2.2.1 (.str "x") rfl,
   transforms_null_passthrough_and_partial_totality.2.2.2.2.1 (.dict []) rfl⟩

/-- C2 counterexample: a single bad record does abort the boat/day
unit.  A line decoding to the non-object JSON value 5 makes
`record.get('ts', '')` raise AttributeError, and a record whose `msg`
is the non-empty string "hello" makes `msg_obj.keys()` raise
AttributeError; neither exception is caught in
`process_boat_day_data`. -/
theorem process_records_aborts_on_bad_record :
    processRecords "cr38" [PyVal.int 5] =
      .error "AttributeError: object has no attribute get" ∧
    processRecords "cr38" [.dict [("ts", .str "2024"), ("msg", .str "hello")]] =
      .error "AttributeError: object has no attribute keys" :=
  ⟨rfl, rfl⟩

/-- C2 amended: failures are only partially contained.  A malformed
JSON line is warned about and excluded by the reader without aborting,
and a record that is a JSON object whose `msg` is missing (or whose
only field is `ts`) is dropped without error; but a line decoding to a
non-object JSON value, and a record whose `msg` is a truthy
non-mapping, each raise an uncaught AttributeError that aborts the
whole boat/day unit. -/
theorem record_failures_partially_contained :
    readJsonFile [⟨"not json", Option.none⟩,
                  ⟨"good", some (.dict [("ts", .str "1")])⟩] =
      ([.dict [("ts", .str "1")]], 1) ∧
    (∀ boat tsv, processRecords boat [.dict [("ts", tsv)]] = .ok []) ∧
    (∃ e, processRecords "cr38" [PyVal.str "plain string line"] = .error e) ∧
    (∃ e, processRecords "cr38" [.dict [("ts", .int 0), ("msg", .int 1)]] = .error e) :=
  ⟨rfl, fun _ _ => rfl, ⟨_, rfl⟩, ⟨_, rfl⟩⟩

/-- Every point the config loop adds beyond its accumulator carries the
record's timestamp. -/
theorem runConfigs_timestamp_aux (boat : String) (ts : PyVal) (mt : String)
    (mdo : PyVal) :
    ∀ (cfgs : List MessageConfig) (acc out : List (String × DataPointV)),
      runConfigs boat ts mt mdo cfgs acc = .ok out →
      ∀ p ∈ out, p ∈ acc ∨ p.2.timestamp = ts := by
  intro cfgs
  induction cfgs with
  | nil =>
    intro acc out h p hp
    cases h
    exact Or.inl hp
  | cons cfg rest ih =>
    intro acc out h p hp
    unfold runConfigs at h
    split at h
    · split at h
      · exact ih acc out h p hp
      · split at h
        · split at h
          · cases h
          · exact ih acc out h p hp
          · rcases ih _ out h p hp with hmem | hts
            · rcases List.mem_append.mp hmem with h1 | h2
              · exact Or.inl h1
              · cases List.mem_singleton.mp h2
                exact Or.inr rfl
            · exact Or.inr hts
        · rcases ih _ out h p hp with hmem | hts
          · rcases List.mem_append.mp hmem with h1 | h2
            · exact Or.inl h1
            · cases List.mem_singleton.mp h2
              exact Or.inr rfl
          · exact Or.inr hts
    · exact ih acc out h p hp

/-- `process_boat_day_data`'s record body on a JSON-object record,
with the `record.get` calls resolved. -/
theorem processRecord_dict_eq (boat : String) (kvs : List (String × PyVal)) :
    processRecord boat (.dict kvs) =
      (if pyTruthy ((lookupStr kvs "msg").getD (.dict [])) then
        (do
          let keys ← pyKeys ((lookupStr kvs "msg").getD (.dict []))
          let mt := keys.headD ""
          let mdo ← pyGet ((lookupStr kvs "msg").getD (.dict [])) mt (.dict [])
          runConfigs boat ((lookupStr kvs "ts").getD (.str "")) mt mdo
            MESSAGE_CONFIGS [])
      else pure []) := rfl

/-- Every data point emitted for a JSON-object record carries
`record.get('ts', '')` as its timestamp. -/
theorem processRecord_points_timestamp (boat : String)
    (kvs : List (String × PyVal)) (out : List (String × DataPointV))
    (h : processRecord boat (.dict kvs) = .ok out) :
    ∀ p ∈ out, p.2.timestamp = (lookupStr kvs "ts").getD (.str "") := by
  intro p hp
  rw [processRecord_dict_eq] at h
  split at h
  · cases hmsg : (lookupStr kvs "msg").getD (.dict []) <;> rw [hmsg] at h <;>
      try cases h
    case dict l =>
      have h2 : runConfigs boat ((lookupStr kvs "ts").getD (.str ""))
          ((l.map Prod.fst).headD "")
          ((lookupStr l ((l.map Prod.fst).headD "")).getD (.dict []))
          MESSAGE_CONFIGS [] = .ok out := h
      rcases runConfigs_timestamp_aux _ _ _ _ _ _ _ h2 p hp with hmem | hts
      · cases hmem
      · exact hts
  · cases h
    cases hp

/-- C4 counterexample: a record with no `ts` field is not dropped — it
is processed with the default timestamp `''` and does emit a data
point (the claim says it produces no Data Point for any signal). -/
theorem record_without_timestamp_still_emits :
    processRecord "cr38"
        (.dict [("msg", .dict [("Odometry", .dict [("odometer", .int 7)])])]) =
      .ok [("Odometry", ⟨"cr38", .int 7, .str ""⟩)] ∧
    processRecord "cr38"
        (.dict [("msg", .dict [("Odometry", .dict [("odometer", .int 7)])])]) ≠
      .ok [] := by
  refine ⟨rfl, fun h => ?_⟩
  have h2 : Except.ok (ε := String)
      [(("Odometry" : String), (⟨"cr38", .int 7, .str ""⟩ : DataPointV))] =
      Except.ok (ε := String) ([] : List (String × DataPointV)) :=
    (show processRecord "cr38"
        (.dict [("msg", .dict [("Odometry", .dict [("odometer", .int 7)])])]) =
      _ from rfl).symm.trans h
  injection h2 with h3
  cases h3

/-- C4 amended: a record missing the timestamp field is processed with
the empty-string default timestamp (every emitted point carries
`record.get('ts', '')`); a record whose payload wrapper `msg` is
missing is dropped silently; and a wrapper with several top-level keys
is still processed, using its first key as the discriminator. -/
theorem record_timestamp_defaulting :
    (∀ boat kvs out, processRecord boat (.dict kvs) = .ok out →
        ∀ p ∈ out, p.2.timestamp = (lookupStr kvs "ts").getD (.str "")) ∧
    (∀ boat kvs, lookupStr kvs "msg" = Option.none →
        processRecord boat (.dict kvs) = .ok []) ∧
    processRecord "cr38"
        (.dict [("ts", .str "t"),
                ("msg", .dict [("Odometry", .dict [("odometer", .int 1)]),
                               ("SeaState", .dict [("instant_g_force", .int 2)])])]) =
      .ok [("Odometry", ⟨"cr38", .int 1, .str "t"⟩)] := by
  refine ⟨fun boat kvs out h => processRecord_points_timestamp boat kvs out h,
    ?_, rfl⟩
  intro boat kvs h
  rw [processRecord_dict_eq, h]
  rfl

/-- Witness for C4 amended: the msg-less empty record yields no points,
and the point emitted for a record with `ts = "9"` carries that
timestamp. -/
theorem record_timestamp_defaulting_witness :
    processRecord "cr38" (.dict []) = .ok [] ∧
    (⟨"cr38", .int 7, .str "9"⟩ : DataPointV).timestamp =
      (lookupStr [("ts", .str "9"),
          ("msg", .dict [("Odometry", .dict [("odometer", .int 7)])])]
        "ts").getD (.str "") :=
  ⟨record_timestamp_defaulting.2.1 "cr38" [] rfl,
   record_timestamp_defaulting.1 "cr38"
     [("ts", .str "9"), ("msg", .dict [("Odometry", .dict [("odometer", .int 7)])])]
     [("Odometry", ⟨"cr38", .int 7, .str "9"⟩)] rfl
     ("Odometry", ⟨"cr38", .int 7, .str "9"⟩) (List.mem_singleton.mpr rfl)⟩

/-- The reader loop with a general accumulator: records are the decodes
of the non-blank, well-formed lines in order; warnings count the
non-blank lines that fail to decode. -/
theorem readJsonFile_foldl (lines : List Line) :
    ∀ acc : List PyVal × Nat,
      lines.foldl readStep acc =
        (acc.1 ++ (lines.filter (fun l => pyStripTruthy l.text)).filterMap
            (fun l => l.decode),
         acc.2 + (lines.filter (fun l => pyStripTruthy l.text)).countP
            (fun l => l.decode.isNone)) := by
  induction lines with
  | nil => intro acc; simp
  | cons l rest ih =>
    intro acc
    by_cases hb : pyStripTruthy l.text
    · cases hd : l.decode with
      | none =>
        simp only [List.foldl_cons, readStep, hb, if_true, hd, ih]
        simp [List.filter_cons, hb, hd, List.countP_cons]
        omega
      | some r =>
        simp only [List.foldl_cons, readStep, hb, if_true, hd, ih]
        simp [List.filter_cons, hb, hd, List.countP_cons]
    · simp [List.foldl_cons, readStep, hb, ih, List.filter_cons]

/-- C9: `read_json_file` decodes each line independently and in order,
skips blank lines silently, and on a decode failure warns, excludes the
line and continues; a file with one malformed line followed by two
valid lines yields exactly the two valid records with one warning. -/
theorem read_json_file_line_independent :
    (∀ lines,
      readJsonFile lines =
        ((lines.filter (fun l => pyStripTruthy l.text)).filterMap
            (fun l => l.decode),
         (lines.filter (fun l => pyStripTruthy l.text)).countP
            (fun l => l.decode.isNone))) ∧
    readJsonFile [⟨"bad line", Option.none⟩,
                  ⟨"line1", some (.dict [("ts", .int 1)])⟩,
                  ⟨"line2", some (.dict [("ts", .int 2)])⟩] =
      ([.dict [("ts", .int 1)], .dict [("ts", .int 2)]], 1) := by
  refine ⟨fun lines => ?_, rfl⟩
  unfold readJsonFile
  rw [readJsonFile_foldl]
  simp

/-- C3 counterexample: with a missing input root the program logs an
error-level message but still terminates with exit status 0, where the
claim requires a non-zero exit status. -/
theorem main_missing_root_exits_zero :
    (mainRun false [] Option.none Option.none).2 = 0 ∧
    hasError (mainRun false [] Option.none Option.none).1 = true :=
  ⟨rfl, rfl⟩

/-- C3 amended: the program always exits with status 0 — `main` returns
normally on every directory-level path and never calls `sys.exit`.  A
missing input root and an unmatched boat filter are reported as
error-level log messages, not as a non-zero exit status. -/
theorem main_exit_always_zero :
    (∀ rootExists boats bf df, (mainRun rootExists boats bf df).2 = 0) ∧
    (∀ boats bf df, hasError (mainRun false boats bf df).1 = true) ∧
    (∀ boats b df, boats ≠ [] →
        boats.filter (fun x => x.name = b) = [] →
        hasError (mainRun true boats (some b) df).1 = true) := by
  refine ⟨fun _ _ _ _ => rfl, fun _ _ _ => rfl, ?_⟩
  intro boats b df h1 h2
  simp [mainRun, processAllBoats, h2, hasError,
    List.isEmpty_eq_false_iff_exists_mem.mpr
      (List.exists_mem_of_ne_nil boats h1)]

/-- Witness for C3 amended: with one boat directory `alpha` and the
unmatched filter `beta`, the run logs an error and exits 0. -/
theorem main_exit_always_zero_witness :
    hasError (mainRun true [⟨"alpha", []⟩] (some "beta") Option.none).1 = true ∧
    (mainRun true [⟨"alpha", []⟩] (some "beta") Option.none).2 = 0 :=
  ⟨main_exit_always_zero.2.2 [⟨"alpha", []⟩] "beta" Option.none
      (by decide) (by decide),
   main_exit_always_zero.1 true [⟨"alpha", []⟩] (some "beta") Option.none⟩

/-- C8: exporting is idempotent — the written content is a function of
the series alone, and a second run on the unchanged series and output
path overwrites the file with byte-identical content, leaving the
store exactly as after the first run. -/
theorem exporter_idempotent :
    (∀ s path st, runExporter s path (runExporter s path st) =
        runExporter s path st) ∧
    (∀ s path st, s ≠ [] →
        runExporter s path st path = some (exportCsvContent s)) := by
  constructor
  · intro s path st
    unfold runExporter
    split
    · rfl
    · funext p
      by_cases hp : p = path <;> simp [hp]
  · intro s path st h
    unfold runExporter
    rw [if_neg (by simpa using h)]
    simp

/-- Witness for C8 at a one-point series over the empty store. -/
theorem exporter_idempotent_witness :
    runExporter [⟨"cr38", "1", "t"⟩] "current_gear.csv"
        (fun _ => Option.none) "current_gear.csv" =
      some (exportCsvContent [⟨"cr38", "1", "t"⟩]) :=
  exporter_idempotent.2 [⟨"cr38", "1", "t"⟩] "current_gear.csv"
    (fun _ => Option.none) (by decide)

/-- Lexicographic code-point comparison is irreflexive. -/
theorem charListLt_irrefl : ∀ l : List Char, charListLt l l = false := by
  intro l
  induction l with
  | nil => rfl
  | cons c cs ih => simp [charListLt, ih]

/-- Lexicographic code-point comparison is asymmetric. -/
theorem charListLt_asymm :
    ∀ a b : List Char, charListLt a b = true → charListLt b a = false := by
  intro a
  induction a with
  | nil =>
    intro b h
    cases b with
    | nil => simp [charListLt] at h
    | cons c cs => rfl
  | cons x xs ih =>
    intro b h
    cases b with
    | nil => simp [charListLt] at h
    | cons y ys =>
      by_cases h1 : x.toNat < y.toNat
      · simp [charListLt, h1, show ¬ y.toNat < x.toNat by omega]
      · by_cases h2 : y.toNat < x.toNat
        · simp [charListLt, h1, h2] at h
        · have h3 : charListLt xs ys = true := by simpa [charListLt, h1, h2] using h
          simp [charListLt, h1, h2, ih ys h3]

/-- `l = []` is forced when the empty list is not below `l`. -/
theorem charListLt_nil_false {l : List Char} (h : charListLt [] l = false) :
    l = [] := by
  cases l with
  | nil => rfl
  | cons c cs => simp [charListLt] at h

/-- Transitivity of the reflexive companion of the comparison. -/
theorem charListLt_false_trans :
    ∀ (x q p : List Char), charListLt q p = false → charListLt x q = false →
      charListLt x p = false := by
  intro x
  induction x with
  | nil =>
    intro q p h1 h2
    have hq := charListLt_nil_false h2
    subst hq
    have hp := charListLt_nil_false h1
    subst hp
    rfl
  | cons a as ih =>
    intro q p h1 h2
    cases q with
    | nil =>
      have hp := charListLt_nil_false h1
      subst hp
      rfl
    | cons b bs =>
      cases p with
      | nil => rfl
      | cons c cs =>
        by_cases hbc : b.toNat < c.toNat
        · simp [charListLt, hbc] at h1
        · by_cases hab : a.toNat < b.toNat
          · simp [charListLt, hab] at h2
          · by_cases hac : a.toNat < c.toNat
            · omega
            · by_cases hca : c.toNat < a.toNat
              · simp [charListLt, hac, hca]
              · have hrec1 : charListLt bs cs = false := by
                  simpa [charListLt, hbc, show ¬ c.toNat < b.toNat by omega]
                    using h1
                have hrec2 : charListLt as bs = false := by
                  simpa [charListLt, hab, show ¬ b.toNat < a.toNat by omega]
                    using h2
                simpa [charListLt, hac, hca] using ih bs cs hrec1 hrec2

theorem strLt_asymm {a b : String} (h : strLt a b = true) : strLt b a = false :=
  charListLt_asymm a.data b.data h

theorem strLt_irrefl (a : String) : strLt a a = false :=
  charListLt_irrefl a.data

theorem strLt_false_trans {a b c : String} (h1 : strLt b c = false)
    (h2 : strLt a b = false) : strLt a c = false :=
  charListLt_false_trans a.data b.data c.data h1 h2

/-- Inserting keeps the same multiset of points. -/
theorem insertTs_perm (p : DataPoint) :
    ∀ l, (insertTs p l).Perm (p :: l) := by
  intro l
  induction l with
  | nil => exact List.Perm.refl _
  | cons q qs ih =>
    unfold insertTs
    split
    · exact (ih.cons q).trans (List.Perm.swap p q qs)
    · exact List.Perm.refl _

/-- Sorting keeps the same multiset of points (exactly one output row
per input point). -/
theorem sortTs_perm : ∀ l, (sortTs l).Perm l := by
  intro l
  induction l with
  | nil => exact List.Perm.refl _
  | cons p ps ih => exact (insertTs_perm p (sortTs ps)).trans (ih.cons p)

/-- Inserting into a timestamp-sorted list keeps it sorted. -/
theorem insertTs_pairwise (p : DataPoint) :
    ∀ l, l.Pairwise RTs → (insertTs p l).Pairwise RTs := by
  intro l
  induction l with
  | nil => intro _; simp [insertTs]
  | cons q qs ih =>
    intro h
    rcases List.pairwise_cons.mp h with ⟨hq, hqs⟩
    unfold insertTs
    split
    case isTrue hlt =>
      refine List.pairwise_cons.mpr ⟨?_, ih hqs⟩
      intro x hx
      rcases List.mem_cons.mp ((insertTs_perm p qs).mem_iff.mp hx) with hxp | hxq
      · cases hxp
        exact strLt_asymm hlt
      · exact hq x hxq
    case isFalse hlt =>
      have hlt' : strLt q.timestamp p.timestamp = false :=
        Bool.not_eq_true _ ▸ eq_false_of_ne_true hlt
      refine List.pairwise_cons.mpr ⟨?_, h⟩
      intro x hx
      rcases List.mem_cons.mp hx with hxq | hxqs
      · cases hxq
        exact hlt'
      · exact strLt_false_trans hlt' (hq x hxqs)

/-- Sorting produces a non-decreasing timestamp sequence. -/
theorem sortTs_pairwise : ∀ l, (sortTs l).Pairwise RTs := by
  intro l
  induction l with
  | nil => simp [sortTs]
  | cons p ps ih => exact insertTs_pairwise p (sortTs ps) ih

/-- Insertion is stable: restricted to any one timestamp, the inserted
point goes first and the rest keep their order. -/
theorem insertTs_filter (p : DataPoint) (t : String) :
    ∀ l, (insertTs p l).filter (fun q => q.timestamp = t) =
      if p.timestamp = t then
        p :: l.filter (fun q => q.timestamp = t)
      else l.filter (fun q => q.timestamp = t) := by
  intro l
  induction l with
  | nil => by_cases hp : p.timestamp = t <;> simp [insertTs, List.filter, hp]
  | cons q qs ih =>
    unfold insertTs
    split
    case isTrue hlt =>
      by_cases hp : p.timestamp = t
      · have hq : ¬ q.timestamp = t := by
          intro hq
          rw [hq, hp] at hlt
          simp [strLt_irrefl t] at hlt
        simp [List.filter_cons, hq, hp, ih]
      · simp [List.filter_cons, ih, hp]
    case isFalse =>
      simp [List.filter_cons]

/-- Stability of the sort: for every timestamp value, the subsequence of
points carrying it is exactly the original subsequence (original
encounter order retained). -/
theorem sortTs_filter (l : List DataPoint) (t : String) :
    (sortTs l).filter (fun q => q.timestamp = t) =
      l.filter (fun q => q.timestamp = t) := by
  induction l with
  | nil => rfl
  | cons p ps ih =>
    show (insertTs p (sortTs ps)).filter _ = _
    rw [insertTs_filter p t (sortTs ps), ih]
    by_cases hp : p.timestamp = t <;> simp [List.filter_cons, hp]

/-- C1: for a non-empty series the exported CSV is the fixed header row
`boat,value,timestamp` followed by exactly one row per data point (the
sorted list is a permutation of the series), the rows are
non-decreasing in timestamp, and points with equal timestamps keep
their original encounter order (the subsequence at each timestamp is
unchanged — stable sort). -/
theorem export_csv_sorted_stable (s : List DataPoint) (h : s ≠ []) :
    exportCsvLines s = some (csvHeader :: (sortTs s).map csvRow) ∧
    (sortTs s).Perm s ∧
    (sortTs s).Pairwise RTs ∧
    ∀ t, (sortTs s).filter (fun p => p.timestamp = t) =
      s.filter (fun p => p.timestamp = t) := by
  refine ⟨?_, sortTs_perm s, sortTs_pairwise s, fun t => sortTs_filter s t⟩
  unfold exportCsvLines
  rw [if_neg (by simpa using h)]

/-- Witness for C1: a three-point series with a timestamp tie sorts
stably, header first. -/
theorem export_csv_sorted_stable_witness :
    exportCsvLines [⟨"b", "a", "2"⟩, ⟨"b", "x", "1"⟩, ⟨"b", "y", "1"⟩] =
      some ["boat,value,timestamp", "b,x,1", "b,y,1", "b,a,2"] :=
  (export_csv_sorted_stable
      [⟨"b", "a", "2"⟩, ⟨"b", "x", "1"⟩, ⟨"b", "y", "1"⟩]
      (by decide)).1.trans (by rfl)

/-- C10: when a day directory holds no candidate `*.json`/`*.jsonl`
file, day processing returns right after logging a warning: the output
directory is not created, no file is written, and the filesystem state
is returned completely unchanged. -/
theorem empty_day_unit_leaves_fs_unchanged (dayFiles : List SimpleFile)
    (outputDir boat : String) (fs : FS)
    (h : candidateFiles dayFiles = []) :
    processBoatDayData dayFiles outputDir boat fs =
      .ok (fs, [⟨.warning, "No JSON files found"⟩]) := by
  unfold processBoatDayData
  rw [h]
  rfl

/-- Witness for C10: a day directory with only a `.zst` archive and a
text file triggers the warning and leaves the filesystem as it was. -/
theorem empty_day_unit_witness :
    processBoatDayData [⟨"telemetry.json.zst", []⟩, ⟨"notes.txt", []⟩]
        "out/cr38/day1" "cr38" ⟨["out"], [("out/readme", "hi")]⟩ =
      .ok (⟨["out"], [("out/readme", "hi")]⟩,
           [⟨.warning, "No JSON files found"⟩]) :=
  empty_day_unit_leaves_fs_unchanged
    [⟨"telemetry.json.zst", []⟩, ⟨"notes.txt", []⟩]
    "out/cr38/day1" "cr38" ⟨["out"], [("out/readme", "hi")]⟩ (by rfl)
